import Mathlib

/-!
Shallow embedding of the static config extraction in
packages/next-swc/crates/next-core/src/util.rs:
the functions parse_config_from_js_value (lines 219-319) and
parse_config_from_source (lines 169-217), together with the data they
operate on (the analyzer JsValue / ObjectPart shapes that the code
matches on, NextRuntime, NextSourceConfig, and the parsing issues
emitted through NextSourceConfigParsingIssue).

Issues are modelled as the pair of the fixed detail prefix string and
the offending abstract value handed to the invalid_config closure; the
human-readable explainer rendering appended to the detail in the source
(value.explain(2, 0)) is outside this core and is abstracted away.
The process-wide diagnostics sink is modelled by threading an explicit
ordered list of issues through the decoding.
-/

/-- Constant values carried by the analyzer JsValue::Constant variant.
Only the shapes the decoder distinguishes matter: a string, or any
non-string constant (number, boolean, null, undefined). -/
inductive ConstantValue where
  | str (s : String)
  | num (n : Int)
  | bool (b : Bool)
  | null
  | undefined
deriving DecidableEq

/-- ConstantValue::as_str: Some for string constants, None otherwise. -/
def ConstantValue.as_str : ConstantValue → Option String
  | .str s => some s
  | _ => none

mutual
/-- The analyzer abstract value, restricted to the variants the decoder
matches on: Constant, Array, Object, and a catch-all Unknown for every
other JsValue shape (which the decoder treats uniformly). -/
inductive JsValue where
  | Constant (c : ConstantValue)
  | Array (items : List JsValue)
  | Object (parts : List ObjectPart)
  | Unknown

/-- ObjectPart from the analyzer: a key/value pair or a spread. -/
inductive ObjectPart where
  | KeyValue (key value : JsValue)
  | Spread (value : JsValue)
end

/-- JsValue::as_str: Some exactly for Constant string values. -/
def JsValue.as_str : JsValue → Option String
  | .Constant c => c.as_str
  | _ => none

/-- NextRuntime (util.rs lines 99-106); NodeJs is the Default. -/
inductive NextRuntime where
  | NodeJs
  | Edge
deriving DecidableEq

/-- NextSourceConfig (util.rs lines 108-115). -/
structure NextSourceConfig where
  runtime : NextRuntime := .NodeJs
  matcher : Option (List String) := none
deriving DecidableEq

/-- NextSourceConfig::default(): runtime NodeJs, matcher None. -/
def NextSourceConfig.default : NextSourceConfig := {}

/-- A parsing issue: the fixed detail prefix plus the offending value
passed to invalid_config (none for the locator issue, which is built
directly without a value). Severity, title and category are fixed in
the source and carry no information per issue. -/
structure ConfigIssue where
  detail : String
  value : Option JsValue

/-- The invalid_config closure (util.rs lines 224-232), modelled as
constructing the issue record that it emits. -/
def invalid_config (detail : String) (value : JsValue) : ConfigIssue :=
  ⟨detail, some value⟩

/-- Detail of the spread issue (util.rs line 237). -/
def spreadDetail : String :=
  "Spread properties are not supported in the config export."

/-- Detail of the unrecognized-runtime-string issue (util.rs lines 253-258). -/
def runtimeEnumDetail : String :=
  "The runtime property must be either \"nodejs\" or \"edge\"."

/-- Detail of the non-constant-runtime issue (util.rs lines 262-265). -/
def runtimeConstDetail : String :=
  "The runtime property must be a constant string."

/-- Detail of the invalid-matcher issue (util.rs lines 275-298). -/
def matcherDetail : String :=
  "The matcher property must be a string or array of strings"

/-- Detail of the non-constant-key issue (util.rs lines 303-306). -/
def nonConstantKeyDetail : String :=
  "The exported config object must not contain non-constant strings."

/-- Detail of the not-an-object issue (util.rs lines 312-315). -/
def objectLiteralDetail : String :=
  "The exported config object must be a valid object literal."

/-- Detail of the missing-initializer issue (util.rs lines 199-209),
text as in the source. -/
def initDetail : String :=
  "The exported config object must contain an variable initializer."

/-- The missing-initializer issue, built without an offending value. -/
def initIssue : ConfigIssue := ⟨initDetail, none⟩

/-- The key == "runtime" branch of parse_config_from_js_value
(util.rs lines 242-267). A Constant whose as_str is None falls through
silently: the source has no else branch on the inner if-let. -/
def decodeRuntimeField (config : NextSourceConfig) (issues : List ConfigIssue)
    (value : JsValue) : NextSourceConfig × List ConfigIssue :=
  match value with
  | .Constant c =>
    match c.as_str with
    | some runtime =>
      if runtime = "edge" ∨ runtime = "experimental-edge" then
        ({ config with runtime := .Edge }, issues)
      else if runtime = "nodejs" then
        ({ config with runtime := .NodeJs }, issues)
      else
        (config, issues ++ [invalid_config runtimeEnumDetail value])
    | none => (config, issues)
  | _ => (config, issues ++ [invalid_config runtimeConstDetail value])

/-- One step of the matcher array loop (util.rs lines 283-293):
a string item is pushed onto the matchers list, any other item emits
the matcher issue (referencing the whole matcher value w). -/
def matcherStep (w : JsValue) (acc : List String × List ConfigIssue)
    (item : JsValue) : List String × List ConfigIssue :=
  match item.as_str with
  | some m => (acc.1 ++ [m], acc.2)
  | none => (acc.1, acc.2 ++ [invalid_config matcherDetail w])

/-- The key == "matcher" branch of parse_config_from_js_value
(util.rs lines 268-301). Note that config.matcher = Some(matchers) is
executed unconditionally after the match, for every shape of value. -/
def decodeMatcherField (config : NextSourceConfig) (issues : List ConfigIssue)
    (value : JsValue) : NextSourceConfig × List ConfigIssue :=
  let pair : List String × List ConfigIssue :=
    match value with
    | .Constant c =>
      match c.as_str with
      | some m => ([m], issues)
      | none => ([], issues ++ [invalid_config matcherDetail value])
    | .Array items => items.foldl (matcherStep value) ([], issues)
    | _ => ([], issues ++ [invalid_config matcherDetail value])
  ({ config with matcher := some pair.1 }, pair.2)

/-- Processing of a single ObjectPart in the loop of
parse_config_from_js_value (util.rs lines 234-309). The whole object
value w is what the spread issue references. The source checks
key == "runtime" and key == "matcher" with two separate ifs in
sequence, which is mirrored here. -/
def processPart (w : JsValue) (acc : NextSourceConfig × List ConfigIssue)
    (part : ObjectPart) : NextSourceConfig × List ConfigIssue :=
  match part with
  | .Spread _ => (acc.1, acc.2 ++ [invalid_config spreadDetail w])
  | .KeyValue key value =>
    match key.as_str with
    | some k =>
      let acc1 := if k = "runtime" then decodeRuntimeField acc.1 acc.2 value else acc
      let acc2 := if k = "matcher" then decodeMatcherField acc1.1 acc1.2 value else acc1
      acc2
    | none => (acc.1, acc.2 ++ [invalid_config nonConstantKeyDetail key])

/-- parse_config_from_js_value (util.rs lines 219-319): decode an
abstract value into a NextSourceConfig, pairing the result with the
ordered list of issues emitted along the way. -/
def parse_config_from_js_value (value : JsValue) :
    NextSourceConfig × List ConfigIssue :=
  match value with
  | .Object parts => parts.foldl (processPart value) (NextSourceConfig.default, [])
  | _ => (NextSourceConfig.default, [invalid_config objectLiteralDetail value])

/-- A variable declarator of an exported var declaration: name is the
identifier symbol when the binding pattern is an identifier (None
otherwise, matching as_ident().map(...).unwrap_or_default()), init the
abstract value of the initializer when present. -/
structure VarDeclarator where
  name : Option String
  init : Option JsValue

/-- A module body item, as far as the locator distinguishes them: an
exported variable declaration with its declarators, or anything else
(skipped by the as_module_decl / as_export_decl / as_var chain). -/
inductive ModuleItem where
  | exportVarDecl (decls : List VarDeclarator)
  | other

/-- The inner declarator loop of parse_config_from_source
(util.rs lines 188-211): the first declarator named config that has an
initializer causes an immediate return of the decoded value; one named
config without an initializer emits the missing-initializer issue and
the scan continues. -/
def scanDecls : List ConfigIssue → List VarDeclarator →
    List ConfigIssue ⊕ (NextSourceConfig × List ConfigIssue)
  | issues, [] => .inl issues
  | issues, d :: rest =>
    if d.name = some "config" then
      match d.init with
      | some init =>
        .inr ((parse_config_from_js_value init).1,
              issues ++ (parse_config_from_js_value init).2)
      | none => scanDecls (issues ++ [initIssue]) rest
    else
      scanDecls issues rest

/-- The outer item loop of parse_config_from_source (util.rs lines
182-213): items that are not exported var declarations are skipped;
when the declarator scan returns a config, it is returned immediately,
otherwise the scan continues with the issues accumulated so far; the
default config is returned when the body is exhausted. -/
def scanItems : List ConfigIssue → List ModuleItem →
    NextSourceConfig × List ConfigIssue
  | issues, [] => (NextSourceConfig.default, issues)
  | issues, .other :: rest => scanItems issues rest
  | issues, .exportVarDecl decls :: rest =>
    match scanDecls issues decls with
    | .inr result => result
    | .inl issues2 => scanItems issues2 rest

/-- parse_config_from_source (util.rs lines 169-217) on a parsed
module body, paired with the ordered issues emitted. -/
def parse_config_from_source (body : List ModuleItem) :
    NextSourceConfig × List ConfigIssue :=
  scanItems [] body

/-- Shorthand for a key/value part with a constant string key. -/
def kv (k : String) (v : JsValue) : ObjectPart :=
  .KeyValue (.Constant (.str k)) v

/-- Shorthand for a constant string value. -/
def cstr (s : String) : JsValue :=
  .Constant (.str s)

/-! Helper lemmas shared by the claim theorems. -/

/-- Unfolding of the decoder on an object literal. -/
theorem parse_object_eq (parts : List ObjectPart) :
    parse_config_from_js_value (.Object parts) =
      parts.foldl (processPart (.Object parts)) (NextSourceConfig.default, []) := rfl

/-- Processing an object whose part list ends in p first processes the
prefix, then p, with the accumulated state. -/
theorem parse_object_last (ps : List ObjectPart) (p : ObjectPart) :
    parse_config_from_js_value (.Object (ps ++ [p])) =
      processPart (.Object (ps ++ [p]))
        (List.foldl (processPart (.Object (ps ++ [p]))) (NextSourceConfig.default, []) ps) p := by
  simp [parse_config_from_js_value, List.foldl_append]

/-- The matcher array loop collects exactly the constant-string items,
in order, and emits one matcher issue per non-string item. -/
theorem foldl_matcherStep (w : JsValue) (items : List JsValue) :
    ∀ (ms : List String) (is : List ConfigIssue),
    items.foldl (matcherStep w) (ms, is) =
      (ms ++ items.filterMap JsValue.as_str,
       is ++ List.replicate (items.countP fun i => (JsValue.as_str i).isNone)
         (invalid_config matcherDetail w)) := by
  induction items with
  | nil => intro ms is; simp
  | cons item rest ih =>
    intro ms is
    cases h : item.as_str with
    | some m =>
      simp only [List.foldl_cons, matcherStep, h, List.filterMap_cons, List.countP_cons]
      rw [ih]
      simp [h]
    | none =>
      simp only [List.foldl_cons, matcherStep, h, List.filterMap_cons, List.countP_cons]
      rw [ih]
      simp [h, List.replicate_succ]

/-- decodeRuntimeField never touches the matcher field. -/
theorem decodeRuntimeField_matcher (c : NextSourceConfig) (is : List ConfigIssue)
    (v : JsValue) : (decodeRuntimeField c is v).1.matcher = c.matcher := by
  unfold decodeRuntimeField
  cases v with
  | Constant cv =>
    cases h : cv.as_str with
    | some s => simp only [h]; split <;> [rfl; (split <;> rfl)]
    | none => simp only [h]
  | Array items => rfl
  | Object parts => rfl
  | Unknown => rfl

/-- decodeMatcherField always sets the matcher field to some list. -/
theorem decodeMatcherField_matcher (c : NextSourceConfig) (is : List ConfigIssue)
    (v : JsValue) : ∃ l, (decodeMatcherField c is v).1.matcher = some l :=
  ⟨_, rfl⟩

/-- Processing any part preserves the matcher field being set. -/
theorem processPart_matcher_some (w : JsValue) (acc : NextSourceConfig × List ConfigIssue)
    (p : ObjectPart) (h : ∃ l, acc.1.matcher = some l) :
    ∃ l, (processPart w acc p).1.matcher = some l := by
  cases p with
  | Spread v => exact h
  | KeyValue key v =>
    cases hk : key.as_str with
    | none => simp only [processPart, hk]; exact h
    | some k =>
      simp only [processPart, hk]
      by_cases hm : k = "matcher"
      · rw [if_pos hm]
        exact decodeMatcherField_matcher _ _ _
      · rw [if_neg hm]
        by_cases hr : k = "runtime"
        · rw [if_pos hr, decodeRuntimeField_matcher]
          exact h
        · rw [if_neg hr]
          exact h

/-- A part whose key is the constant string "matcher" sets the matcher
field to some list. -/
theorem processPart_matcher_trigger (w : JsValue) (acc : NextSourceConfig × List ConfigIssue)
    (key v : JsValue) (h : key.as_str = some "matcher") :
    ∃ l, (processPart w acc (.KeyValue key v)).1.matcher = some l := by
  simp only [processPart, h]
  exact decodeMatcherField_matcher _ _ _

/-- Folding preserves the matcher field being set. -/
theorem foldl_matcher_some (w : JsValue) (parts : List ObjectPart) :
    ∀ acc, (∃ l, acc.1.matcher = some l) →
    ∃ l, ((parts.foldl (processPart w) acc).1).matcher = some l := by
  induction parts with
  | nil => intro acc h; exact h
  | cons p rest ih =>
    intro acc h
    exact ih (processPart w acc p) (processPart_matcher_some w acc p h)

/-- If some part of the list has key "matcher", the fold ends with the
matcher field set. -/
theorem foldl_matcher_trigger (w : JsValue) (parts : List ObjectPart) :
    ∀ acc, (∃ key v, ObjectPart.KeyValue key v ∈ parts ∧ JsValue.as_str key = some "matcher") →
    ∃ l, ((parts.foldl (processPart w) acc).1).matcher = some l := by
  induction parts with
  | nil =>
    intro acc h
    rcases h with ⟨key, v, hm, _⟩
    exact absurd hm (List.not_mem_nil _)
  | cons p rest ih =>
    intro acc h
    rcases h with ⟨key, v, hm, hs⟩
    rcases List.mem_cons.mp hm with h1 | h1
    · subst h1
      simp only [List.foldl_cons]
      exact foldl_matcher_some w rest _ (processPart_matcher_trigger w acc key v hs)
    · simp only [List.foldl_cons]
      exact ih (processPart w acc p) ⟨key, v, h1, hs⟩

/-- Declarator lists with no declarator named config are scanned
through without effect. -/
theorem scanDecls_no_config (decls : List VarDeclarator) :
    ∀ issues, (∀ d ∈ decls, d.name ≠ some "config") →
    scanDecls issues decls = .inl issues := by
  induction decls with
  | nil => intro issues _; rfl
  | cons d rest ih =>
    intro issues h
    have hd : d.name ≠ some "config" := h d (List.mem_cons_self _ _)
    simp only [scanDecls, if_neg hd]
    exact ih issues (fun d2 h2 => h d2 (List.mem_cons_of_mem _ h2))

/-- Module bodies with no exported declarator named config produce the
default config and leave the issues unchanged. -/
theorem scanItems_no_config (body : List ModuleItem) :
    ∀ issues, (∀ decls, ModuleItem.exportVarDecl decls ∈ body → ∀ d ∈ decls, d.name ≠ some "config") →
    scanItems issues body = (NextSourceConfig.default, issues) := by
  induction body with
  | nil => intro issues _; rfl
  | cons item rest ih =>
    intro issues h
    cases item with
    | other =>
      simp only [scanItems]
      exact ih issues (fun decls hm => h decls (List.mem_cons_of_mem _ hm))
    | exportVarDecl decls =>
      have hd := h decls (List.mem_cons_self _ _)
      simp only [scanItems, scanDecls_no_config decls issues hd]
      exact ih issues (fun decls2 hm => h decls2 (List.mem_cons_of_mem _ hm))

/-! The claims. -/

/-- C1: decoding an Object never fails fast: a Spread part always emits
exactly its own spread issue and leaves the config untouched, the part
list is processed left to right by accumulation (a prefix never aborts
the suffix), and an object with a Spread part followed by runtime
"edge" yields runtime Edge with exactly one issue. -/
theorem C1_accumulate_never_fail_fast (w v : JsValue)
    (acc : NextSourceConfig × List ConfigIssue) (ps qs : List ObjectPart) :
    processPart w acc (.Spread v) = (acc.1, acc.2 ++ [invalid_config spreadDetail w]) ∧
    List.foldl (processPart w) acc (ps ++ qs) =
      List.foldl (processPart w) (List.foldl (processPart w) acc ps) qs ∧
    parse_config_from_js_value (.Object [.Spread .Unknown, kv "runtime" (cstr "edge")]) =
      (⟨.Edge, none⟩,
       [invalid_config spreadDetail (.Object [.Spread .Unknown, kv "runtime" (cstr "edge")])]) :=
  ⟨rfl, List.foldl_append _ _ _ _, rfl⟩

/-- C2: a KeyValue part with key "runtime" and a constant string value
maps "edge" and "experimental-edge" to Edge, "nodejs" to NodeJs, and any
other string emits one runtime-enum issue leaving runtime at its prior
value; the config with runtime "deno" keeps the default NodeJs with
exactly one issue. -/
theorem C2_runtime_constant_strings (w : JsValue) (c : NextSourceConfig)
    (is : List ConfigIssue) (s : String) :
    processPart w (c, is) (kv "runtime" (cstr "edge")) = ({ c with runtime := .Edge }, is) ∧
    processPart w (c, is) (kv "runtime" (cstr "experimental-edge")) =
      ({ c with runtime := .Edge }, is) ∧
    processPart w (c, is) (kv "runtime" (cstr "nodejs")) = ({ c with runtime := .NodeJs }, is) ∧
    (s ≠ "edge" → s ≠ "experimental-edge" → s ≠ "nodejs" →
      processPart w (c, is) (kv "runtime" (cstr s)) =
        (c, is ++ [invalid_config runtimeEnumDetail (cstr s)])) ∧
    parse_config_from_js_value (.Object [kv "runtime" (cstr "deno")]) =
      (NextSourceConfig.default, [invalid_config runtimeEnumDetail (cstr "deno")]) := by
  refine ⟨rfl, rfl, rfl, ?_, rfl⟩
  intro h1 h2 h3
  show decodeRuntimeField c is (cstr s) = _
  simp only [decodeRuntimeField, cstr, ConstantValue.as_str]
  rw [if_neg (by simp [h1, h2]), if_neg h3]

/-- C2 witness: the general unrecognized-string case applied at "deno". -/
theorem C2_runtime_constant_strings_witness :
    processPart .Unknown (NextSourceConfig.default, []) (kv "runtime" (cstr "deno")) =
      (NextSourceConfig.default, [invalid_config runtimeEnumDetail (cstr "deno")]) :=
  (C2_runtime_constant_strings .Unknown NextSourceConfig.default [] "deno").2.2.2.1
    (by decide) (by decide) (by decide)

/-- C3: a KeyValue part with key "matcher" and a constant string value
yields the one-element matcher list; an Array value yields the list of
its constant-string items in order, one matcher issue per non-string
item, the rest still collected; the array with "/a" and 42 yields
Some ["/a"] with exactly one issue. -/
theorem C3_matcher_string_and_array (w : JsValue) (c : NextSourceConfig)
    (is : List ConfigIssue) (s : String) (items : List JsValue) :
    processPart w (c, is) (kv "matcher" (cstr s)) = ({ c with matcher := some [s] }, is) ∧
    processPart w (c, is) (kv "matcher" (.Array items)) =
      ({ c with matcher := some (items.filterMap JsValue.as_str) },
       is ++ List.replicate (items.countP fun i => (JsValue.as_str i).isNone)
         (invalid_config matcherDetail (.Array items))) ∧
    parse_config_from_js_value (.Object [kv "matcher" (.Array [cstr "/a", .Constant (.num 42)])]) =
      (⟨.NodeJs, some ["/a"]⟩,
       [invalid_config matcherDetail (.Array [cstr "/a", .Constant (.num 42)])]) := by
  refine ⟨rfl, ?_, rfl⟩
  show decodeMatcherField c is (.Array items) = _
  simp only [decodeMatcherField, foldl_matcherStep (.Array items) items [] is]
  simp

/-- C4: decoding any non-Object abstract value emits exactly the
object-literal issue and returns the default config. -/
theorem C4_non_object_default (v : JsValue) (h : ∀ parts, v ≠ .Object parts) :
    parse_config_from_js_value v =
      (NextSourceConfig.default, [invalid_config objectLiteralDetail v]) := by
  cases v with
  | Constant c => rfl
  | Array items => rfl
  | Object parts => exact absurd rfl (h parts)
  | Unknown => rfl

/-- C4 witness: the non-object case at the Unknown value. -/
theorem C4_non_object_default_witness :
    parse_config_from_js_value .Unknown =
      (NextSourceConfig.default, [invalid_config objectLiteralDetail .Unknown]) :=
  C4_non_object_default .Unknown (fun _ h => JsValue.noConfusion h)

/-- C5 counterexample: a runtime key whose value is the constant number
42 (a value that is not Constant(string)) emits no issue at all: the
decoder returns the default config with an empty issue list, where the
claim requires exactly one runtime-must-be-constant-string issue. -/
theorem C5_runtime_counterexample :
    parse_config_from_js_value (.Object [kv "runtime" (.Constant (.num 42))]) =
      (NextSourceConfig.default, []) ∧
    (parse_config_from_js_value (.Object [kv "runtime" (.Constant (.num 42))])).2.length = 0 :=
  ⟨rfl, rfl⟩

/-- C5 amended: a runtime value that is not a Constant at all emits
exactly one runtime-must-be-constant-string issue and leaves the config
unchanged; a runtime value that is a Constant but not a string is
silently ignored, emitting no issue and leaving the config unchanged. -/
theorem C5_runtime_non_string_behavior (w : JsValue) (c : NextSourceConfig)
    (is : List ConfigIssue) (v : JsValue) (k : ConstantValue) :
    ((∀ cv, v ≠ .Constant cv) →
      processPart w (c, is) (kv "runtime" v) =
        (c, is ++ [invalid_config runtimeConstDetail v])) ∧
    (ConstantValue.as_str k = none →
      processPart w (c, is) (kv "runtime" (.Constant k)) = (c, is)) := by
  constructor
  · intro h
    show decodeRuntimeField c is v = _
    cases v with
    | Constant cv => exact absurd rfl (h cv)
    | Array items => rfl
    | Object parts => rfl
    | Unknown => rfl
  · intro hk
    show decodeRuntimeField c is (.Constant k) = _
    simp only [decodeRuntimeField, hk]

/-- C5 witness: the non-Constant case at Unknown and the non-string
constant case at the number 42. -/
theorem C5_runtime_non_string_behavior_witness :
    processPart .Unknown (NextSourceConfig.default, []) (kv "runtime" .Unknown) =
      (NextSourceConfig.default, [invalid_config runtimeConstDetail .Unknown]) ∧
    processPart .Unknown (NextSourceConfig.default, []) (kv "runtime" (.Constant (.num 42))) =
      (NextSourceConfig.default, []) :=
  ⟨(C5_runtime_non_string_behavior .Unknown NextSourceConfig.default [] .Unknown (.num 42)).1
     (fun _ h => JsValue.noConfusion h),
   (C5_runtime_non_string_behavior .Unknown NextSourceConfig.default [] .Unknown (.num 42)).2 rfl⟩

/-- C6 counterexample: after matcher "/a" sets the matcher to Some
["/a"], a second matcher key with an invalid shape (Unknown) emits the
matcher issue but overwrites the matcher with Some [] instead of
leaving it at its prior value Some ["/a"]. -/
theorem C6_matcher_counterexample :
    parse_config_from_js_value (.Object [kv "matcher" (cstr "/a"), kv "matcher" .Unknown]) =
      (⟨.NodeJs, some []⟩, [invalid_config matcherDetail .Unknown]) ∧
    (parse_config_from_js_value
        (.Object [kv "matcher" (cstr "/a"), kv "matcher" .Unknown])).1.matcher ≠ some ["/a"] :=
  ⟨rfl, by decide⟩

/-- C6 amended: a matcher value that is neither a Constant nor an Array
emits exactly one matcher issue and sets the matcher field to Some of
the empty list, overwriting any prior value. -/
theorem C6_matcher_invalid_shape (w : JsValue) (c : NextSourceConfig)
    (is : List ConfigIssue) (v : JsValue) (h1 : ∀ cv, v ≠ .Constant cv)
    (h2 : ∀ items, v ≠ .Array items) :
    processPart w (c, is) (kv "matcher" v) =
      ({ c with matcher := some [] }, is ++ [invalid_config matcherDetail v]) := by
  show decodeMatcherField c is v = _
  cases v with
  | Constant cv => exact absurd rfl (h1 cv)
  | Array items => exact absurd rfl (h2 items)
  | Object parts => rfl
  | Unknown => rfl

/-- C6 witness: the invalid shape case at the Unknown value. -/
theorem C6_matcher_invalid_shape_witness :
    processPart .Unknown (NextSourceConfig.default, []) (kv "matcher" .Unknown) =
      ({ NextSourceConfig.default with matcher := some [] },
       [invalid_config matcherDetail .Unknown]) :=
  C6_matcher_invalid_shape .Unknown NextSourceConfig.default [] .Unknown
    (fun _ h => JsValue.noConfusion h) (fun _ h => JsValue.noConfusion h)

/-- C7: whenever some part of the object has the constant string key
"matcher", the decoded config's matcher field is Some of a list, never
None, regardless of the shape of the value. -/
theorem C7_matcher_key_forces_some (parts : List ObjectPart)
    (h : ∃ key v, ObjectPart.KeyValue key v ∈ parts ∧ JsValue.as_str key = some "matcher") :
    ∃ l, (parse_config_from_js_value (.Object parts)).1.matcher = some l := by
  rw [parse_object_eq]
  exact foldl_matcher_trigger (.Object parts) parts (NextSourceConfig.default, []) h

/-- C7 witness: a single matcher key with a string value. -/
theorem C7_matcher_key_forces_some_witness :
    ∃ l, (parse_config_from_js_value (.Object [kv "matcher" (cstr "/a")])).1.matcher = some l :=
  C7_matcher_key_forces_some [kv "matcher" (cstr "/a")]
    ⟨.Constant (.str "matcher"), cstr "/a", List.mem_singleton.mpr rfl, rfl⟩

/-- C8 counterexample: a config declarator with no initializer followed
by a config declarator initialized to an object with runtime "edge":
the locator emits the missing-initializer issue, continues scanning,
and uses the second declarator, yielding runtime Edge — not the default
record the claim requires when the first match has no initializer. -/
theorem C8_locator_counterexample :
    parse_config_from_source [.exportVarDecl [⟨some "config", none⟩,
        ⟨some "config", some (.Object [kv "runtime" (cstr "edge")])⟩]] =
      (⟨.Edge, none⟩, [initIssue]) ∧
    (parse_config_from_source [.exportVarDecl [⟨some "config", none⟩,
        ⟨some "config", some (.Object [kv "runtime" (cstr "edge")])⟩]]).1 ≠
      NextSourceConfig.default :=
  ⟨rfl, by decide⟩

/-- C8 amended: the locator scans exported variable declarators in
source order and returns the decoded value of the first declarator
named config that has an initializer, ignoring everything after it; a
config declarator with no initializer emits the missing-initializer
issue and scanning continues with the following declarators; non-config
declarators and non-export items are skipped; an exhausted body yields
the default config with the issues accumulated so far. -/
theorem C8_locator_first_init (issues issues2 : List ConfigIssue)
    (d : VarDeclarator) (rest decls : List VarDeclarator) (v : JsValue)
    (restItems : List ModuleItem) :
    (d.name = some "config" → d.init = some v →
      scanDecls issues (d :: rest) =
        .inr ((parse_config_from_js_value v).1,
              issues ++ (parse_config_from_js_value v).2)) ∧
    (d.name = some "config" → d.init = none →
      scanDecls issues (d :: rest) = scanDecls (issues ++ [initIssue]) rest) ∧
    (d.name ≠ some "config" → scanDecls issues (d :: rest) = scanDecls issues rest) ∧
    (scanDecls issues decls = .inl issues2 →
      scanItems issues (.exportVarDecl decls :: restItems) = scanItems issues2 restItems) ∧
    scanItems issues (.other :: restItems) = scanItems issues restItems ∧
    scanItems issues ([] : List ModuleItem) = (NextSourceConfig.default, issues) ∧
    parse_config_from_source [.exportVarDecl [⟨some "config", none⟩,
        ⟨some "config", some (.Object [kv "runtime" (cstr "edge")])⟩]] =
      (⟨.Edge, none⟩, [initIssue]) := by
  refine ⟨?_, ?_, ?_, ?_, rfl, rfl, rfl⟩
  · intro h1 h2
    simp only [scanDecls, if_pos h1, h2]
  · intro h1 h2
    simp only [scanDecls, if_pos h1, h2]
  · intro h1
    simp only [scanDecls, if_neg h1]
  · intro h
    simp only [scanItems, h]

/-- C8 witness: each locator step at concrete declarators. -/
theorem C8_locator_first_init_witness :
    scanDecls [] [⟨some "config", some (.Object [])⟩] =
      .inr ((parse_config_from_js_value (.Object [])).1,
            [] ++ (parse_config_from_js_value (.Object [])).2) ∧
    scanDecls [] [⟨some "config", none⟩] = scanDecls ([] ++ [initIssue]) [] ∧
    scanDecls [] [⟨some "other", none⟩] = scanDecls [] [] ∧
    scanItems [] [.exportVarDecl [⟨some "other", none⟩]] = scanItems [] [] :=
  ⟨(C8_locator_first_init [] [] ⟨some "config", some (.Object [])⟩ [] [] (.Object []) []).1
     rfl rfl,
   (C8_locator_first_init [] [] ⟨some "config", none⟩ [] [] .Unknown []).2.1 rfl rfl,
   (C8_locator_first_init [] [] ⟨some "other", none⟩ [] [] .Unknown []).2.2.1 (by decide),
   (C8_locator_first_init [] [] ⟨some "other", none⟩ [] [⟨some "other", none⟩] .Unknown
      []).2.2.2.1 rfl⟩

/-- C9: the last occurrence of a repeated key wins: whatever parts come
before, a final runtime "edge" / "experimental-edge" / "nodejs" part
determines the runtime, a final matcher string part determines the
matcher list, and the concrete repeated-key objects show the earlier
assignment being overwritten with no duplicate-key issue. -/
theorem C9_last_occurrence_wins (ps : List ObjectPart) (s : String) :
    (parse_config_from_js_value
        (.Object (ps ++ [kv "runtime" (cstr "edge")]))).1.runtime = .Edge ∧
    (parse_config_from_js_value
        (.Object (ps ++ [kv "runtime" (cstr "experimental-edge")]))).1.runtime = .Edge ∧
    (parse_config_from_js_value
        (.Object (ps ++ [kv "runtime" (cstr "nodejs")]))).1.runtime = .NodeJs ∧
    (parse_config_from_js_value
        (.Object (ps ++ [kv "matcher" (cstr s)]))).1.matcher = some [s] ∧
    parse_config_from_js_value
        (.Object [kv "runtime" (cstr "edge"), kv "runtime" (cstr "nodejs")]) =
      (⟨.NodeJs, none⟩, []) ∧
    parse_config_from_js_value
        (.Object [kv "matcher" (cstr "/a"), kv "matcher" (cstr "/b")]) =
      (⟨.NodeJs, some ["/b"]⟩, []) := by
  refine ⟨?_, ?_, ?_, ?_, rfl, rfl⟩
  · rw [parse_object_last]; rfl
  · rw [parse_object_last]; rfl
  · rw [parse_object_last]; rfl
  · rw [parse_object_last]; rfl

/-- C10: a body with no exported declarator named config decodes to the
default config with zero issues, and so do the empty object literal and
a config export initialized to the empty object literal. -/
theorem C10_absent_or_empty_defaults (body : List ModuleItem)
    (h : ∀ decls, ModuleItem.exportVarDecl decls ∈ body →
      ∀ d ∈ decls, d.name ≠ some "config") :
    parse_config_from_source body = (NextSourceConfig.default, []) ∧
    parse_config_from_js_value (.Object []) = (NextSourceConfig.default, []) ∧
    parse_config_from_source [.exportVarDecl [⟨some "config", some (.Object [])⟩]] =
      (NextSourceConfig.default, []) :=
  ⟨scanItems_no_config body [] h, rfl, rfl⟩

/-- C10 witness: a body consisting of a single non-export item. -/
theorem C10_absent_or_empty_defaults_witness :
    parse_config_from_source [ModuleItem.other] = (NextSourceConfig.default, []) ∧
    parse_config_from_js_value (.Object []) = (NextSourceConfig.default, []) ∧
    parse_config_from_source [.exportVarDecl [⟨some "config", some (.Object [])⟩]] =
      (NextSourceConfig.default, []) :=
  C10_absent_or_empty_defaults [ModuleItem.other] (by
    intro decls hm
    rcases List.mem_singleton.mp hm with h
    exact ModuleItem.noConfusion h)
